import Mathlib

/-!
# Event-Monitoring: verified embedding of the classification/dedup core

A shallow embedding, in Lean 4, of the parts of the Event-Monitoring
repository that the specification's testable claims talk about:

* `src/firms/firms_list.py` — the static firm/keyword/role registry;
* `src/firms/detector.py` — `FirmDetector` (pure text heuristics);
* `src/database/db_manager.py` + `src/database/models.py` — the
  persistence/dedup store, modelled as explicit state passing over lists;
* `src/scrapers/*.py` — the per-candidate processing and the
  fetch-failure paths of the scrape entry points (external I/O becomes an
  explicit `Except` parameter);
* `src/notifications/notifier.py` — `notify_new_items`;
* `src/storage.py` — `ContentStorage` filename generation (including a
  full executable MD5, since `_generate_filename` uses `hashlib.md5`).

Python strings are modelled as their lists of Unicode code points
(`PyStr := List Nat`).  All registry data and all classifier phrases are
ASCII, so `str.lower()` and the regex `\b`/`\w` classes are modelled at
ASCII precision.
-/

namespace EventMonitoring

/-! ## Python string primitives -/

/-- A Python `str`, as its list of Unicode code points. -/
abbrev PyStr := List Nat

/-- Code points of a Lean string literal. -/
def codes (s : String) : PyStr := s.toList.map Char.toNat

/-- `str.lower()` on one code point (ASCII letters; registry data is ASCII). -/
def lowerCode (n : Nat) : Nat := if 65 ≤ n ∧ n ≤ 90 then n + 32 else n

/-- `str.lower()`. -/
def pyLower (s : PyStr) : PyStr := s.map lowerCode

/-- `text.startswith(pat)`: `pat` is a leading segment of `text`. -/
def leadSeg : PyStr → PyStr → Bool
  | [], _ => true
  | _ :: _, [] => false
  | a :: as, b :: bs => a == b && leadSeg as bs

/-- Python's substring test `needle in hay`. -/
def hasSub (needle : PyStr) : PyStr → Bool
  | [] => leadSeg needle []
  | c :: rest => leadSeg needle (c :: rest) || hasSub needle rest

/-- Membership in the regex class `\w` (ASCII: letters, digits, underscore). -/
def isWordCode (n : Nat) : Bool :=
  (48 ≤ n && n ≤ 57) || (65 ≤ n && n ≤ 90) || (97 ≤ n && n ≤ 122) || n == 95

/-- Case-insensitive variant of `leadSeg` (models `re.IGNORECASE`). -/
def ciLeadSeg : PyStr → PyStr → Bool
  | [], _ => true
  | _ :: _, [] => false
  | a :: as, b :: bs => lowerCode a == lowerCode b && ciLeadSeg as bs

/-- The pattern `pat` matches at the current position and is followed by a
word boundary (end of text or a non-`\w` character).  Together with the
pre-boundary check in `wbSearchGo` this models `re.search` of
`r'\b' + re.escape(pat) + r'\b'` with `re.IGNORECASE`, for patterns that
begin and end with `\w` characters — which every `QUANT_FIRMS` entry does. -/
def wbMatchHere (pat text : PyStr) : Bool :=
  ciLeadSeg pat text &&
    (match text.drop pat.length with
     | [] => true
     | c :: _ => !isWordCode c)

/-- Scan for a word-boundary match; `prevW` says whether the character just
before the current position is a `\w` character (`false` at start of text). -/
def wbSearchGo (pat : PyStr) : Bool → PyStr → Bool
  | prevW, [] => !prevW && wbMatchHere pat []
  | prevW, c :: rest =>
      (!prevW && wbMatchHere pat (c :: rest)) || wbSearchGo pat (isWordCode c) rest

/-- `re.search(r'\b…\b', text, re.IGNORECASE) is not None`. -/
def wbSearch (pat text : PyStr) : Bool := wbSearchGo pat false text

/-! ## Firm registry (`src/firms/firms_list.py`) -/

/-- `QUANT_FIRMS` (firms_list.py lines 4–44), in source order, duplicates
("Citadel Securities", "Virtu Financial") included. -/
def QUANT_FIRMS : List String := [
  "Citadel", "Citadel Securities", "Two Sigma", "Renaissance Technologies",
  "DE Shaw", "D. E. Shaw", "Jump Trading", "Jane Street",
  "Optiver", "IMC Trading", "Akuna Capital", "DRW",
  "Susquehanna International Group", "SIG", "Hudson River Trading", "HRT",
  "Tower Research", "Virtu Financial", "Wolverine Trading", "Old Mission",
  "Five Rings", "Radix Trading", "XR Trading", "Quantitative Investment Management",
  "QIM", "Goldman Sachs", "Morgan Stanley", "JP Morgan",
  "JPMorgan", "Bank of America", "Barclays", "Credit Suisse",
  "UBS", "Deutsche Bank", "Citi", "Citigroup",
  "BlackRock", "Vanguard", "State Street", "AQR Capital",
  "Bridgewater Associates", "Millennium Management", "Point72", "Winton Group",
  "Man Group", "Schonfeld", "Chicago Trading Company", "CTC",
  "Geneva Trading", "Belvedere Trading", "Allston Trading", "TransMarket Group",
  "TMG", "Peak6", "Headlands Tech", "Valkyrie Trading",
  "Citadel Securities", "Virtu Financial", "Flow Traders", "GTS",
  "Global Trading Systems", "XTX Markets", "Jump Crypto", "Cumberland",
  "Wintermute", "GSR", "Galaxy Digital", "Paradigm",
  "Framework Ventures", "FalconX", "B2C2", "Amber Group",
  "QCP Capital", "Kronos Research", "Folkvang", "CMS Holdings",
  "Alameda Research", "Coinbase", "Kraken", "Gemini",
  "Binance US", "Robinhood", "Bloomberg", "FactSet",
  "Refinitiv"
]

/-- The explicit (non-firm) entries of `QUANT_KEYWORDS`
(firms_list.py lines 47–67). -/
def quantTopicKeywords : List String := [
  "quantitative", "quant", "trader", "trading",
  "systematic", "algorithmic", "algo", "market maker",
  "portfolio manager", "risk management", "derivatives", "fixed income",
  "machine learning", "ml", "data science", "statistics",
  "stochastic calculus", "time series", "optimization", "high frequency",
  "hft", "low latency", "equity", "options",
  "futures", "commodities", "forex", "rates",
  "credit", "volatility", "arbitrage", "alpha",
  "factor models", "crypto", "cryptocurrency", "blockchain",
  "defi", "digital assets", "market making", "financial engineering",
  "computational finance", "mathematical finance", "econometrics"
]

/-- `QUANT_KEYWORDS` = the topic keywords followed by
`*[firm.lower() for firm in QUANT_FIRMS]` (firms_list.py line 70). -/
def QUANT_KEYWORDS : List PyStr :=
  quantTopicKeywords.map codes ++ QUANT_FIRMS.map (fun firm => pyLower (codes firm))

/-- `QUANT_JOB_ROLES` (firms_list.py lines 74–86). -/
def QUANT_JOB_ROLES : List String := [
  "quantitative researcher", "quant researcher", "qr", "quantitative trader",
  "quant trader", "trader", "quantitative developer", "quant developer",
  "quant dev", "quantitative analyst", "quant analyst", "research scientist",
  "research engineer", "data scientist", "ml engineer", "machine learning",
  "software engineer - trading", "trading systems", "portfolio manager", "portfolio analyst",
  "risk analyst", "risk manager", "derivatives analyst", "derivatives trader",
  "market maker", "systematic trader"
]

/-! ## `FirmDetector` (`src/firms/detector.py`) -/

/-- `FirmDetector.detect_firm` (detector.py lines 23–36): the firms whose
compiled `\b…\b` case-insensitive pattern matches somewhere in `text`,
in registry order. -/
def detect_firm (text : String) : List String :=
  QUANT_FIRMS.filter (fun firm => wbSearch (codes firm) (codes text))

/-- The keyword-match count of `is_quant_related` for an already-lowered
text: `sum(1 for keyword in self.keywords if keyword in text_lower)`. -/
def quantMatches (textLower : PyStr) : Nat :=
  QUANT_KEYWORDS.countP (fun keyword => hasSub keyword textLower)

/-- `FirmDetector.is_quant_related` on an arbitrary `PyStr` argument (the
method lowers its argument itself). -/
def is_quant_relatedL (text : PyStr) (threshold : Nat) : Bool × Nat :=
  let count := quantMatches (pyLower text)
  (decide (threshold ≤ count), count)

/-- `FirmDetector.is_quant_related` (detector.py lines 38–50); the Python
default for `threshold` is 2. -/
def is_quant_related (text : String) (threshold : Nat := 2) : Bool × Nat :=
  is_quant_relatedL (codes text) threshold

/-- `FirmDetector.is_relevant_job` (detector.py lines 52–71): an explicit
job-role substring match on the lower-cased `f"{title} {description}"`,
or `is_quant_related` at threshold 3 on the same (already lowered) text. -/
def is_relevant_job (job_title : String) (job_description : String := "") : Bool :=
  let combined := pyLower (codes (job_title ++ " " ++ job_description))
  QUANT_JOB_ROLES.any (fun role => hasSub (pyLower (codes role)) combined)
    || (is_quant_relatedL combined 3).1

/-- `FirmDetector.extract_firm_name` (detector.py lines 73–83). -/
def extract_firm_name (text : String) : Option String :=
  (detect_firm text).head?

/-- `FirmDetector.score_event_relevance` (detector.py lines 85–107):
+5 for a firm mention, plus the keyword count capped at 5, clamped to 10. -/
def score_event_relevance (title : String) (description : String := "") : Nat :=
  let combined := title ++ " " ++ description
  let score := if (detect_firm combined).isEmpty then 0 else 5
  let score := score + min (is_quant_related combined 0).2 5
  min score 10

/-- The `registration_keywords` list local to `requires_registration`
(detector.py lines 118–121). -/
def registrationKeywords : List String := [
  "register", "registration", "rsvp", "sign up",
  "signup", "reserve", "reservation"
]

/-- `FirmDetector.requires_registration` (detector.py lines 109–124). -/
def requires_registration (text : String) : Bool :=
  registrationKeywords.any (fun keyword => hasSub (codes keyword) (pyLower (codes text)))

/-! ## Data model (`src/database/models.py`)

Each SQLAlchemy model becomes a record.  Integer primary keys are `Nat`
(SQLite assigns 1, 2, …); nullable text/date columns are `Option String`
(dates are opaque payloads to the claims); the `created_at`/`updated_at`
timestamps are omitted — nothing in the system reads them. -/

/-- `Firm` (models.py lines 11–32); only `name` is ever passed by the
callers in this repository, the remaining nullable columns stay `none`. -/
structure FirmRec where
  id : Nat
  name : String
  deriving Repr, DecidableEq

/-- The optional/keyword attributes of an `Event` row (models.py lines 35–57). -/
structure EventAttrs where
  description : Option String := none
  event_url : Option String := none
  event_date : Option String := none
  location : Option String := none
  source_url : Option String := none
  requires_registration : Bool := false
  registration_url : Option String := none
  deriving Repr, DecidableEq

/-- An `events` row. `notified` has column default `False`. -/
structure EventRec where
  id : Nat
  firm_id : Nat
  title : String
  attrs : EventAttrs
  notified : Bool
  deriving Repr, DecidableEq

/-- The optional/keyword attributes of a `JobPosting` row (models.py lines 60–81). -/
structure JobAttrs where
  description : Option String := none
  location : Option String := none
  job_type : Option String := none
  posted_date : Option String := none
  is_relevant : Bool := true
  deriving Repr, DecidableEq

/-- A `job_postings` row; `job_url` is the dedup identity. -/
structure JobRec where
  id : Nat
  firm_id : Nat
  title : String
  job_url : String
  attrs : JobAttrs
  notified : Bool
  deriving Repr, DecidableEq

/-- Content fields of a `blog_posts` row (models.py lines 102–124), as
computed by `BlogScraper._process_blog_post` before the insert. -/
structure BlogData where
  title : String
  url : String
  author : Option String := none
  published_date : Option String := none
  summary : Option String := none
  content_file : Option String := none
  tags : Option String := none
  is_technical : Bool := true
  deriving Repr, DecidableEq

/-- A `blog_posts` row. -/
structure BlogRec where
  id : Nat
  firm_id : Nat
  data : BlogData
  notified : Bool
  deriving Repr, DecidableEq

/-- Content fields of an `investor_reports` row (models.py lines 127–148). -/
structure ReportData where
  title : String
  url : String
  report_type : Option String := none
  report_date : Option String := none
  file_path : Option String := none
  summary : Option String := none
  key_metrics : Option String := none
  deriving Repr, DecidableEq

/-- An `investor_reports` row. -/
structure ReportRec where
  id : Nat
  firm_id : Nat
  data : ReportData
  notified : Bool
  deriving Repr, DecidableEq

/-- Content fields of a `video_content` row (models.py lines 151–175). -/
structure VideoData where
  title : String
  url : String
  platform : Option String := none
  video_id : Option String := none
  published_date : Option String := none
  duration : Option Nat := none
  transcript_file : Option String := none
  summary : Option String := none
  speakers : Option String := none
  topics : Option String := none
  deriving Repr, DecidableEq

/-- A `video_content` row. -/
structure VideoRec where
  id : Nat
  firm_id : Nat
  data : VideoData
  notified : Bool
  deriving Repr, DecidableEq

/-- A `scrape_logs` row (models.py lines 84–99); append-only. -/
structure ScrapeLogRec where
  source_name : String
  source_url : Option String := none
  scrape_type : String
  success : Bool := true
  events_found : Nat := 0
  jobs_found : Nat := 0
  error_message : Option String := none
  deriving Repr, DecidableEq

/-- The whole relational store, plus the autoincrement counters SQLite
keeps per table (first assigned id is 1). -/
structure DB where
  firms : List FirmRec := []
  events : List EventRec := []
  jobs : List JobRec := []
  blogs : List BlogRec := []
  reports : List ReportRec := []
  videos : List VideoRec := []
  logs : List ScrapeLogRec := []
  nextFirmId : Nat := 1
  nextEventId : Nat := 1
  nextJobId : Nat := 1
  nextBlogId : Nat := 1
  nextReportId : Nat := 1
  nextVideoId : Nat := 1
  deriving Repr, DecidableEq

/-- The empty store right after `create_tables`. -/
def emptyDB : DB := {}

/-! ## `DatabaseManager` (`src/database/db_manager.py`)

Sessions are single-threaded and every method commits before returning, so
each method is a pure function `DB → result × DB`.  `query(...).first()`
is `List.find?`; `query(...).filter_by(...).all()` is `List.filter`. -/

/-- Update the first list entry satisfying `p` (what a
`query.filter_by(...).first()` + attribute assignment + commit does). -/
def markFirst (p : α → Bool) (f : α → α) : List α → List α
  | [] => []
  | x :: xs => if p x then f x :: xs else x :: markFirst p f xs

/-- `DatabaseManager.get_or_create_firm` (db_manager.py lines 48–65). -/
def get_or_create_firm (db : DB) (name : String) : FirmRec × DB :=
  match db.firms.find? (fun f => f.name == name) with
  | some f => (f, db)
  | none =>
      let f : FirmRec := { id := db.nextFirmId, name := name }
      (f, { db with firms := db.firms ++ [f], nextFirmId := db.nextFirmId + 1 })

/-- `DatabaseManager.add_event` (db_manager.py lines 67–94): dedup key is
the `(firm_id, title)` pair; a duplicate returns `None` and inserts nothing. -/
def add_event (db : DB) (firm_name title : String) (attrs : EventAttrs := {}) :
    Option EventRec × DB :=
  let fdb := get_or_create_firm db firm_name
  match fdb.2.events.find? (fun e => e.firm_id == fdb.1.id && e.title == title) with
  | some _ => (none, fdb.2)
  | none =>
      let e : EventRec :=
        { id := fdb.2.nextEventId, firm_id := fdb.1.id, title := title,
          attrs := attrs, notified := false }
      (some e, { fdb.2 with events := fdb.2.events ++ [e], nextEventId := fdb.2.nextEventId + 1 })

/-- `DatabaseManager.add_job_posting` (db_manager.py lines 96–121): dedup
key is `job_url` alone. -/
def add_job_posting (db : DB) (firm_name title job_url : String)
    (attrs : JobAttrs := {}) : Option JobRec × DB :=
  let fdb := get_or_create_firm db firm_name
  match fdb.2.jobs.find? (fun j => j.job_url == job_url) with
  | some _ => (none, fdb.2)
  | none =>
      let j : JobRec :=
        { id := fdb.2.nextJobId, firm_id := fdb.1.id, title := title,
          job_url := job_url, attrs := attrs, notified := false }
      (some j, { fdb.2 with jobs := fdb.2.jobs ++ [j], nextJobId := fdb.2.nextJobId + 1 })

/-- `DatabaseManager.get_unnotified_events` (db_manager.py lines 123–134). -/
def get_unnotified_events (db : DB) : List EventRec :=
  db.events.filter (fun e => e.notified == false)

/-- `DatabaseManager.get_unnotified_jobs` (db_manager.py lines 136–147). -/
def get_unnotified_jobs (db : DB) : List JobRec :=
  db.jobs.filter (fun j => j.notified == false)

/-- `DatabaseManager.mark_event_notified` (db_manager.py lines 149–159). -/
def mark_event_notified (db : DB) (event_id : Nat) : DB :=
  { db with events :=
      markFirst (fun e => e.id == event_id) (fun e => { e with notified := true }) db.events }

/-- `DatabaseManager.mark_job_notified` (db_manager.py lines 161–171). -/
def mark_job_notified (db : DB) (job_id : Nat) : DB :=
  { db with jobs :=
      markFirst (fun j => j.id == job_id) (fun j => { j with notified := true }) db.jobs }

/-- `DatabaseManager.log_scrape` (db_manager.py lines 173–198): always
appends, never deduplicates. -/
def log_scrape (db : DB) (entry : ScrapeLogRec) : DB :=
  { db with logs := db.logs ++ [entry] }

/-! ## Scraper insert blocks for the url-keyed content types

`BlogScraper._process_blog_post` (blog_scraper.py lines 243–269),
`ReportScraper._process_report` (report_scraper.py lines 210–242) and
`VideoScraper._process_video` (video_scraper.py lines 188–227) each open
one session, look the `url` up, return `False` on a hit, and otherwise
get-or-create the firm and insert.  The field values computed before the
block (converted markdown path, downloaded pdf summary, transcript, …)
arrive here as the `data` argument. -/

/-- The `with self.db.get_session()` block of `_process_blog_post`. -/
def processBlogPostDB (db : DB) (firm_name : String) (data : BlogData) : Bool × DB :=
  match db.blogs.find? (fun b => b.data.url == data.url) with
  | some _ => (false, db)
  | none =>
      let fdb := get_or_create_firm db firm_name
      let b : BlogRec := { id := fdb.2.nextBlogId, firm_id := fdb.1.id, data := data, notified := false }
      (true, { fdb.2 with blogs := fdb.2.blogs ++ [b], nextBlogId := fdb.2.nextBlogId + 1 })

/-- The `with self.db.get_session()` block of `_process_report`. -/
def processReportDB (db : DB) (firm_name : String) (data : ReportData) : Bool × DB :=
  match db.reports.find? (fun r => r.data.url == data.url) with
  | some _ => (false, db)
  | none =>
      let fdb := get_or_create_firm db firm_name
      let r : ReportRec := { id := fdb.2.nextReportId, firm_id := fdb.1.id, data := data, notified := false }
      (true, { fdb.2 with reports := fdb.2.reports ++ [r], nextReportId := fdb.2.nextReportId + 1 })

/-- The `with self.db.get_session()` block of `_process_video`. -/
def processVideoDB (db : DB) (firm_name : String) (data : VideoData) : Bool × DB :=
  match db.videos.find? (fun v => v.data.url == data.url) with
  | some _ => (false, db)
  | none =>
      let fdb := get_or_create_firm db firm_name
      let v : VideoRec := { id := fdb.2.nextVideoId, firm_id := fdb.1.id, data := data, notified := false }
      (true, { fdb.2 with videos := fdb.2.videos ++ [v], nextVideoId := fdb.2.nextVideoId + 1 })

/-! ## Event and job scrapers (`src/scrapers/event_scraper.py`, `job_scraper.py`)

The HTTP fetch + HTML/feed parse of an entry point is external I/O; it
enters the model as an `Except String (List _)` argument: `.error msg`
is the `except Exception as e` path with `str(e) = msg`, `.ok cs` is the
list of normalized candidates the extraction loop produced. -/

/-- A candidate event dict as built by `_extract_events_from_html` /
the RSS entry mapping (event_scraper.py lines 99–104, 162–204). -/
structure EventCandidate where
  title : String := ""
  description : String := ""
  url : Option String := none
  date : Option String := none
  location : Option String := none
  deriving Repr, DecidableEq

/-- The firm-name decision of `EventScraper._process_event`
(event_scraper.py lines 220–235): reject below score 3; else the first
detected firm; else the generic placeholder if `is_quant_related` (default
threshold 2) holds; else reject. -/
def processEventDecision (title description : String) : Option String :=
  if score_event_relevance title description < 3 then none
  else
    match extract_firm_name (title ++ " " ++ description) with
    | some firm_name => some firm_name
    | none =>
        if (is_quant_related (title ++ " " ++ description)).1 then
          some "Quantitative Finance Firm"
        else none

/-- `EventScraper._process_event` (event_scraper.py lines 210–253). -/
def processEvent (db : DB) (ev : EventCandidate) (source_name : String) : Bool × DB :=
  match processEventDecision ev.title ev.description with
  | none => (false, db)
  | some firm_name =>
      let requires_reg := requires_registration (ev.title ++ " " ++ ev.description)
      let res := add_event db firm_name ev.title
        { description := some ev.description, event_url := ev.url,
          event_date := ev.date, location := ev.location,
          source_url := some source_name,
          requires_registration := requires_reg,
          registration_url := if requires_reg then ev.url else none }
      (res.1.isSome, res.2)

/-- A candidate job dict as built by `_extract_jobs_from_html`
(job_scraper.py lines 144–202); `url` is mandatory there. -/
structure JobCandidate where
  title : String := ""
  description : String := ""
  url : String := ""
  location : Option String := none
  job_type : Option String := none
  posted_date : Option String := none
  deriving Repr, DecidableEq

/-- `JobScraper._process_job` (job_scraper.py lines 204–239). -/
def processJob (db : DB) (job : JobCandidate) (firm_name : String) : Bool × DB :=
  if job.url == "" then (false, db)
  else if !is_relevant_job job.title job.description then (false, db)
  else
    let res := add_job_posting db firm_name job.title job.url
      { description := some job.description, location := job.location,
        job_type := job.job_type, posted_date := job.posted_date,
        is_relevant := true }
    (res.1.isSome, res.2)

/-- `EventScraper.scrape_generic_events_page` (event_scraper.py lines
36–80): on fetch/parse failure, log a failed `ScrapeLog` with the error
message and return 0; on success, process each candidate and log the
relevant count. -/
def scrape_generic_events_page (db : DB) (url source_name : String)
    (fetched : Except String (List EventCandidate)) : Nat × DB :=
  match fetched with
  | .error e =>
      (0, log_scrape db
        { source_name := source_name, source_url := some url, scrape_type := "event",
          success := false, events_found := 0, jobs_found := 0, error_message := some e })
  | .ok events =>
      let folded := events.foldl
        (fun acc ev =>
          let res := processEvent acc.2 ev source_name
          (if res.1 then acc.1 + 1 else acc.1, res.2))
        ((0 : Nat), db)
      (folded.1, log_scrape folded.2
        { source_name := source_name, source_url := some url, scrape_type := "event",
          success := true, events_found := folded.1, jobs_found := 0,
          error_message := none })

/-- `EventScraper.scrape_rss_feed` (event_scraper.py lines 82–129); the
feed entries arrive already mapped to candidates (lines 99–104). -/
def scrape_rss_feed (db : DB) (feed_url source_name : String)
    (parsed : Except String (List EventCandidate)) : Nat × DB :=
  match parsed with
  | .error e =>
      (0, log_scrape db
        { source_name := source_name, source_url := some feed_url, scrape_type := "event",
          success := false, events_found := 0, jobs_found := 0, error_message := some e })
  | .ok entries =>
      let folded := entries.foldl
        (fun acc ev =>
          let res := processEvent acc.2 ev source_name
          (if res.1 then acc.1 + 1 else acc.1, res.2))
        ((0 : Nat), db)
      (folded.1, log_scrape folded.2
        { source_name := source_name, source_url := some feed_url, scrape_type := "event",
          success := true, events_found := folded.1, jobs_found := 0,
          error_message := none })

/-- `JobScraper.scrape_firm_jobs` (job_scraper.py lines 36–80). -/
def scrape_firm_jobs (db : DB) (firm_name careers_url : String)
    (fetched : Except String (List JobCandidate)) : Nat × DB :=
  match fetched with
  | .error e =>
      (0, log_scrape db
        { source_name := firm_name, source_url := some careers_url, scrape_type := "job",
          success := false, events_found := 0, jobs_found := 0, error_message := some e })
  | .ok jobs =>
      let folded := jobs.foldl
        (fun acc job =>
          let res := processJob acc.2 job firm_name
          (if res.1 then acc.1 + 1 else acc.1, res.2))
        ((0 : Nat), db)
      (folded.1, log_scrape folded.2
        { source_name := firm_name, source_url := some careers_url, scrape_type := "job",
          success := true, events_found := 0, jobs_found := folded.1,
          error_message := none })

/-! ## `Notifier.notify_new_items` (`src/notifications/notifier.py`) -/

/-- The summary dict built by `notify_new_items` (notifier.py lines 42–49). -/
structure NotifySummary where
  events_notified : Nat := 0
  jobs_notified : Nat := 0
  blog_posts_notified : Nat := 0
  reports_notified : Nat := 0
  videos_notified : Nat := 0
  total_notifications : Nat := 0
  deriving Repr, DecidableEq

/-- The exception raised at notifier.py line 38. -/
def attributeErrorMsg : String :=
  "AttributeError: 'DatabaseManager' object has no attribute 'get_unnotified_blog_posts'"

/-- `Notifier.notify_new_items` (notifier.py lines 30–75).  Lines 36–37
fetch the unnotified events and jobs; line 38 then evaluates
`self.db.get_unnotified_blog_posts()`, but `DatabaseManager`
(db_manager.py) defines only `get_or_create_firm`, `add_event`,
`add_job_posting`, `get_unnotified_events`, `get_unnotified_jobs`,
`mark_event_notified`, `mark_job_notified`, `log_scrape`,
`get_firms_with_events`, `get_firm_event_history` (plus session/table
plumbing) — there is no `get_unnotified_blog_posts` anywhere in the
repository, so the attribute lookup raises `AttributeError` before any
notification or marking happens. -/
def notify_new_items (db : DB) : Except String (NotifySummary × DB) :=
  let _events := get_unnotified_events db
  let _jobs := get_unnotified_jobs db
  Except.error attributeErrorMsg

/-! ## `ContentStorage` (`src/storage.py`)

`_generate_filename` builds `f"{safe_firm}_{timestamp}_{title_hash}_{safe_title}{extension}"`
where `title_hash = hashlib.md5(title.encode()).hexdigest()[:8]` and
`timestamp = datetime.now().strftime('%Y%m%d')`.  The wall clock enters
the model as the explicit `today` argument; file writes are external
effects, the functions return the relative path.  MD5 (RFC 1321) is
implemented below in full so the embedding computes the very same
filenames. -/

/-- UTF-8 encoding of one code point (`str.encode()`). -/
def utf8Enc (n : Nat) : List Nat :=
  if n < 128 then [n]
  else if n < 2048 then [192 + n / 64, 128 + n % 64]
  else if n < 65536 then [224 + n / 4096, 128 + n / 64 % 64, 128 + n % 64]
  else [240 + n / 262144, 128 + n / 4096 % 64, 128 + n / 64 % 64, 128 + n % 64]

/-- `str.encode()`: UTF-8 bytes of a Python string. -/
def utf8Bytes (s : PyStr) : List Nat := (s.map utf8Enc).flatten

/-- The 64 MD5 sine constants `⌊|sin(i+1)|·2³²⌋`. -/
def md5K : List Nat := [
  3614090360, 3905402710, 606105819, 3250441966,
  4118548399, 1200080426, 2821735955, 4249261313,
  1770035416, 2336552879, 4294925233, 2304563134,
  1804603682, 4254626195, 2792965006, 1236535329,
  4129170786, 3225465664, 643717713, 3921069994,
  3593408605, 38016083, 3634488961, 3889429448,
  568446438, 3275163606, 4107603335, 1163531501,
  2850285829, 4243563512, 1735328473, 2368359562,
  4294588738, 2272392833, 1839030562, 4259657740,
  2763975236, 1272893353, 4139469664, 3200236656,
  681279174, 3936430074, 3572445317, 76029189,
  3654602809, 3873151461, 530742520, 3299628645,
  4096336452, 1126891415, 2878612391, 4237533241,
  1700485571, 2399980690, 4293915773, 2240044497,
  1873313359, 4264355552, 2734768916, 1309151649,
  4149444226, 3174756917, 718787259, 3951481745
]

/-- The MD5 per-round left-rotation amounts. -/
def md5S : List Nat := [
  7, 12, 17, 22, 7, 12, 17, 22, 7, 12, 17, 22, 7, 12, 17, 22,
  5, 9, 14, 20, 5, 9, 14, 20, 5, 9, 14, 20, 5, 9, 14, 20,
  4, 11, 16, 23, 4, 11, 16, 23, 4, 11, 16, 23, 4, 11, 16, 23,
  6, 10, 15, 21, 6, 10, 15, 21, 6, 10, 15, 21, 6, 10, 15, 21
]

/-- Bitwise complement within 32 bits (arguments are kept `< 2³²`). -/
def comp32 (x : Nat) : Nat := 4294967295 - x

/-- Left-rotate a 32-bit word by `s` places (`0 < s < 32`). -/
def rotl32 (x s : Nat) : Nat := x * 2 ^ s % 4294967296 + x / 2 ^ (32 - s)

/-- The MD5 round function for round `i`. -/
def md5F (i b c d : Nat) : Nat :=
  if i < 16 then Nat.lor (Nat.land b c) (Nat.land (comp32 b) d)
  else if i < 32 then Nat.lor (Nat.land d b) (Nat.land (comp32 d) c)
  else if i < 48 then Nat.xor (Nat.xor b c) d
  else Nat.xor c (Nat.lor b (comp32 d))

/-- The MD5 message-word schedule for round `i`. -/
def md5G (i : Nat) : Nat :=
  if i < 16 then i
  else if i < 32 then (5 * i + 1) % 16
  else if i < 48 then (3 * i + 5) % 16
  else (7 * i) % 16

/-- `k` little-endian bytes of the value `w`. -/
def leBytes (k w : Nat) : List Nat := (List.range k).map (fun i => w / 256 ^ i % 256)

/-- The `g`-th little-endian 32-bit word of a 64-byte chunk. -/
def chunkWord (chunk : List Nat) (g : Nat) : Nat :=
  chunk.getD (4 * g) 0 + 256 * chunk.getD (4 * g + 1) 0 +
    65536 * chunk.getD (4 * g + 2) 0 + 16777216 * chunk.getD (4 * g + 3) 0

/-- One of the 64 MD5 rounds. -/
def md5Round (chunk : List Nat) (st : Nat × Nat × Nat × Nat) (i : Nat) :
    Nat × Nat × Nat × Nat :=
  let (a, b, c, d) := st
  let f := (md5F i b c d + a + md5K.getD i 0 + chunkWord chunk (md5G i)) % 4294967296
  (d, (b + rotl32 f (md5S.getD i 0)) % 4294967296, b, c)

/-- Process one 64-byte chunk, updating the running digest state. -/
def md5Chunk (st : Nat × Nat × Nat × Nat) (chunk : List Nat) :
    Nat × Nat × Nat × Nat :=
  let (a0, b0, c0, d0) := st
  let (a, b, c, d) := (List.range 64).foldl (md5Round chunk) (a0, b0, c0, d0)
  ((a0 + a) % 4294967296, (b0 + b) % 4294967296,
   (c0 + c) % 4294967296, (d0 + d) % 4294967296)

/-- Split a byte list into 64-byte chunks. -/
def chunks64 : List Nat → List (List Nat)
  | [] => []
  | c :: rest => ((c :: rest).take 64) :: chunks64 ((c :: rest).drop 64)
termination_by l => l.length
decreasing_by simp [List.length_drop]; omega

/-- MD5 padding: a `0x80` byte, zeros to 56 mod 64, then the 64-bit
little-endian bit length. -/
def md5Pad (msg : List Nat) : List Nat :=
  let padLen := (56 + 64 - (msg.length + 1) % 64) % 64
  msg ++ [128] ++ List.replicate padLen 0 ++ leBytes 8 (8 * msg.length % 2 ^ 64)

/-- The 16-byte MD5 digest of a byte string. -/
def md5Digest (msg : List Nat) : List Nat :=
  let (a, b, c, d) := (chunks64 (md5Pad msg)).foldl md5Chunk
    (1732584193, 4023233417, 2562383102, 271733878)
  leBytes 4 a ++ leBytes 4 b ++ leBytes 4 c ++ leBytes 4 d

/-- Code point of a lowercase hex digit. -/
def hexDigitCode (n : Nat) : Nat := if n < 10 then 48 + n else 87 + n

/-- `hashlib.md5(bytes).hexdigest()` as a `PyStr`. -/
def md5HexDigest (msg : List Nat) : PyStr :=
  ((md5Digest msg).map (fun b => [hexDigitCode (b / 16), hexDigitCode (b % 16)])).flatten

/-- Python `s.replace(old, new)` for single-character `old`/`new`. -/
def replaceCode (old new : Nat) (s : PyStr) : PyStr :=
  s.map (fun c => if c == old then new else c)

/-- Python `s[:n]`, including the negative-index convention. -/
def pySliceTo (s : PyStr) (n : Int) : PyStr :=
  if 0 ≤ n then s.take n.toNat else s.take (s.length - n.natAbs)

/-- Python `s.rfind(c)` for a single character: last index or `-1`. -/
def pyRfind (c : Nat) (s : PyStr) : Int :=
  match s.reverse.findIdx? (fun x => x == c) with
  | none => -1
  | some i => (s.length : Int) - 1 - (i : Int)

/-- `os.path.splitext` (POSIX): split at the last `.`, provided some
non-dot character precedes it in the basename. -/
def pySplitext (s : PyStr) : PyStr × PyStr :=
  let sepIndex := pyRfind 47 s
  let dotIndex := pyRfind 46 s
  if sepIndex < dotIndex then
    let filenameIndex := (sepIndex + 1).toNat
    if ((s.drop filenameIndex).take (dotIndex.toNat - filenameIndex)).any (fun ch => ch != 46) then
      (s.take dotIndex.toNat, s.drop dotIndex.toNat)
    else (s, [])
  else (s, [])

/-- The characters `'<>:"/\\|?*'` replaced by `_` in
`ContentStorage._sanitize_filename` (storage.py lines 34–54). -/
def invalidFilenameChars : List Nat := codes "<>:\"/\\|?*"

/-- `ContentStorage._sanitize_filename` (storage.py lines 34–54):
replace invalid characters with `_`, then cap the length at 200
preserving the extension. -/
def sanitizeFilename (filename : PyStr) : PyStr :=
  let filename := invalidFilenameChars.foldl (fun acc ch => replaceCode ch 95 acc) filename
  if 200 < filename.length then
    let (name, ext) := pySplitext filename
    pySliceTo name (200 - (ext.length : Int)) ++ ext
  else filename

/-- `ContentStorage._generate_filename` (storage.py lines 56–80):
`f"{safe_firm}_{timestamp}_{title_hash}_{safe_title}{extension}"`, where
`title_hash` is the first 8 hex digits of `md5(title.encode())` — a hash
of the *title*, not of the content. -/
def generate_filename (firm_name title extension today : PyStr) : PyStr :=
  let title_hash := (md5HexDigest (utf8Bytes title)).take 8
  let safe_firm := sanitizeFilename (replaceCode 32 95 firm_name)
  let safe_title := sanitizeFilename (replaceCode 32 95 title)
  let safe_title := if 100 < safe_title.length then safe_title.take 100 else safe_title
  safe_firm ++ codes "_" ++ today ++ codes "_" ++ title_hash ++ codes "_" ++ safe_title ++ extension

/-- `ContentStorage.save_blog_post` (storage.py lines 82–102); the file
write is an external effect, the returned value is the relative path
(POSIX separator).  `content` does not influence the result. -/
def save_blog_post (firm_name title : String) (content : String)
    (format : String := "md") (today : String) : PyStr :=
  let _ := content
  codes "blog_posts/" ++ generate_filename (codes firm_name) (codes title)
    (codes ("." ++ format)) (codes today)

/-- `ContentStorage.save_report` (storage.py lines 104–123); `content`
is the downloaded binary, unused in the path. -/
def save_report (firm_name title : String) (content : List Nat)
    (extension : String := ".pdf") (today : String) : PyStr :=
  let _ := content
  codes "reports/" ++ generate_filename (codes firm_name) (codes title)
    (codes extension) (codes today)

/-- `ContentStorage.save_transcript` (storage.py lines 125–143). -/
def save_transcript (firm_name video_title : String) (transcript : String)
    (today : String) : PyStr :=
  let _ := transcript
  codes "transcripts/" ++ generate_filename (codes firm_name) (codes video_title)
    (codes ".txt") (codes today)

/-! ## The store's operation alphabet

Every state-changing call the repository ever makes against the store —
`DatabaseManager`'s own methods plus the scrapers' per-candidate
processing — collected into one alphabet, for stating the `notified`-flag
lifecycle invariant. -/

/-- One state-changing store or extractor operation. -/
inductive StoreOp where
  | getOrCreateFirm (name : String)
  | addEvent (firm_name title : String) (attrs : EventAttrs)
  | addJobPosting (firm_name title job_url : String) (attrs : JobAttrs)
  | markEventNotified (event_id : Nat)
  | markJobNotified (job_id : Nat)
  | logScrape (entry : ScrapeLogRec)
  | processEventOp (ev : EventCandidate) (source_name : String)
  | processJobOp (job : JobCandidate) (firm_name : String)
  | insertBlogPost (firm_name : String) (data : BlogData)
  | insertReport (firm_name : String) (data : ReportData)
  | insertVideo (firm_name : String) (data : VideoData)
  deriving DecidableEq

/-- The state transition of one operation. -/
def applyOp (op : StoreOp) (db : DB) : DB :=
  match op with
  | .getOrCreateFirm name => (get_or_create_firm db name).2
  | .addEvent fn t a => (add_event db fn t a).2
  | .addJobPosting fn t u a => (add_job_posting db fn t u a).2
  | .markEventNotified i => mark_event_notified db i
  | .markJobNotified i => mark_job_notified db i
  | .logScrape e => log_scrape db e
  | .processEventOp ev sn => (processEvent db ev sn).2
  | .processJobOp j fn => (processJob db j fn).2
  | .insertBlogPost fn d => (processBlogPostDB db fn d).2
  | .insertReport fn d => (processReportDB db fn d).2
  | .insertVideo fn d => (processVideoDB db fn d).2

/-- The `notified`-flag lifecycle for one table across one transition
`old → nw`, where `allow i` says the operation is the designated
mark-notified call for id `i`:
1. a row that is `notified` in `nw` either had a `notified` row with its
   id in `old`, or the operation was its mark-notified call;
2. a row `notified` in `old` still has a `notified` row with its id in
   `nw` (the flag never reverts);
3. a row whose id did not exist in `old` (a freshly created row) has
   `notified = false`. -/
def tableInv (idF : α → Nat) (ntfF : α → Bool) (allow : Nat → Prop)
    (old nw : List α) : Prop :=
  (∀ x ∈ nw, ntfF x = true →
      (∃ y ∈ old, idF y = idF x ∧ ntfF y = true) ∨ allow (idF x)) ∧
  (∀ y ∈ old, ntfF y = true → ∃ x ∈ nw, idF x = idF y ∧ ntfF x = true) ∧
  (∀ x ∈ nw, (∀ y ∈ old, idF y ≠ idF x) → ntfF x = false)

/-- The `notified`-flag lifecycle across all five content tables:
event flags flip only via `mark_event_notified`, job flags only via
`mark_job_notified`, and blog/report/video flags never flip at all (no
mark operation for them exists anywhere in the repository). -/
def notifiedInvariant (op : StoreOp) (db db' : DB) : Prop :=
  tableInv EventRec.id EventRec.notified (fun i => op = .markEventNotified i)
    db.events db'.events ∧
  tableInv JobRec.id JobRec.notified (fun i => op = .markJobNotified i)
    db.jobs db'.jobs ∧
  tableInv BlogRec.id BlogRec.notified (fun _ => False) db.blogs db'.blogs ∧
  tableInv ReportRec.id ReportRec.notified (fun _ => False) db.reports db'.reports ∧
  tableInv VideoRec.id VideoRec.notified (fun _ => False) db.videos db'.videos

/-! ## Concrete stores used to instantiate the theorems -/

/-- The store of `tests/test_notifications.py::test_notify_new_events`:
two unnotified events, nothing else. -/
def dbNotifyTest : DB :=
  (add_event (add_event emptyDB "Citadel" "Quant Trading Workshop").2
    "Jane Street" "Mock Trading Competition").2

/-- A store holding the single event `("A", "t")`. -/
def dbEventA : DB := (add_event emptyDB "A" "t").2

/-- `dbEventA` after also inserting the same title under firm `"B"`. -/
def dbEventAB : DB := (add_event dbEventA "B" "t").2

/-- A store holding one job posting. -/
def dbJobOne : DB :=
  (add_job_posting emptyDB "Two Sigma" "Quantitative Researcher"
    "https://careers.twosigma.com/job/1").2

/-- A store holding one blog post. -/
def dbBlogOne : DB :=
  (processBlogPostDB emptyDB "Jane Street"
    { title := "OCaml at Scale", url := "https://blog.janestreet.com/ocaml" }).2

/-- A store holding one investor report. -/
def dbReportOne : DB :=
  (processReportDB emptyDB "AQR Capital"
    { title := "Quarterly Letter", url := "https://www.aqr.com/q1.pdf" }).2

/-- A store holding one video record. -/
def dbVideoOne : DB :=
  (processVideoDB emptyDB "Two Sigma"
    { title := "Tech Talk", url := "https://youtube.com/watch?v=abcdefghijk" }).2

/-! # Theorems

## Generic list lemmas for `markFirst` and `tableInv` -/

theorem mem_markFirst_src {p : α → Bool} {f : α → α} {l : List α} {x : α}
    (h : x ∈ markFirst p f l) : x ∈ l ∨ ∃ y ∈ l, p y = true ∧ x = f y := by
  induction l with
  | nil => simp [markFirst] at h
  | cons a as ih =>
    simp only [markFirst] at h
    split at h
    next hpa =>
      rcases List.mem_cons.mp h with h1 | h1
      · exact Or.inr ⟨a, List.mem_cons_self a as, hpa, h1⟩
      · exact Or.inl (List.mem_cons_of_mem a h1)
    next hpa =>
      rcases List.mem_cons.mp h with h1 | h1
      · exact Or.inl (h1 ▸ List.mem_cons_self a as)
      · rcases ih h1 with h2 | ⟨y, hy, hpy, hxy⟩
        · exact Or.inl (List.mem_cons_of_mem a h2)
        · exact Or.inr ⟨y, List.mem_cons_of_mem a hy, hpy, hxy⟩

theorem mem_markFirst_tgt {p : α → Bool} {f : α → α} {l : List α} {y : α}
    (h : y ∈ l) : y ∈ markFirst p f l ∨ (p y = true ∧ f y ∈ markFirst p f l) := by
  induction l with
  | nil => simp at h
  | cons a as ih =>
    simp only [markFirst]
    split
    next hpa =>
      rcases List.mem_cons.mp h with h1 | h1
      · subst h1; exact Or.inr ⟨hpa, List.mem_cons_self _ _⟩
      · exact Or.inl (List.mem_cons_of_mem _ h1)
    next hpa =>
      rcases List.mem_cons.mp h with h1 | h1
      · subst h1; exact Or.inl (List.mem_cons_self _ _)
      · rcases ih h1 with h2 | ⟨hpy, h2⟩
        · exact Or.inl (List.mem_cons_of_mem _ h2)
        · exact Or.inr ⟨hpy, List.mem_cons_of_mem _ h2⟩

theorem tableInv_refl (idF : α → Nat) (ntfF : α → Bool) (allow : Nat → Prop)
    (l : List α) : tableInv idF ntfF allow l l :=
  ⟨fun x hx hn => Or.inl ⟨x, hx, rfl, hn⟩,
   fun y hy hn => ⟨y, hy, rfl, hn⟩,
   fun x hx h => absurd rfl (h x hx)⟩

theorem tableInv_of_eq (idF : α → Nat) (ntfF : α → Bool) (allow : Nat → Prop)
    {l l' : List α} (h : l' = l) : tableInv idF ntfF allow l l' := by
  subst h; exact tableInv_refl idF ntfF allow _

theorem tableInv_append (idF : α → Nat) (ntfF : α → Bool) (allow : Nat → Prop)
    {l l' : List α} {e : α} (he : ntfF e = false) (h : l' = l ++ [e]) :
    tableInv idF ntfF allow l l' := by
  subst h
  refine ⟨?_, ?_, ?_⟩
  · intro x hx hn
    rcases List.mem_append.mp hx with h1 | h1
    · exact Or.inl ⟨x, h1, rfl, hn⟩
    · have hxe : x = e := by simpa using h1
      rw [hxe, he] at hn
      exact Bool.noConfusion hn
  · intro y hy hn
    exact ⟨y, List.mem_append_left _ hy, rfl, hn⟩
  · intro x hx hfresh
    rcases List.mem_append.mp hx with h1 | h1
    · exact absurd rfl (hfresh x h1)
    · have hxe : x = e := by simpa using h1
      rw [hxe, he]

theorem tableInv_markFirst (idF : α → Nat) (ntfF : α → Bool) (allow : Nat → Prop)
    {p : α → Bool} {f : α → α} {i : Nat} {l l' : List α}
    (hp : ∀ x, p x = true → idF x = i)
    (hid : ∀ x, idF (f x) = idF x)
    (hn : ∀ x, ntfF (f x) = true)
    (ha : allow i)
    (h : l' = markFirst p f l) :
    tableInv idF ntfF allow l l' := by
  subst h
  refine ⟨?_, ?_, ?_⟩
  · intro x hx hnx
    rcases mem_markFirst_src hx with h1 | ⟨y, _, hpy, hxy⟩
    · exact Or.inl ⟨x, h1, rfl, hnx⟩
    · right
      subst hxy
      rw [hid, hp y hpy]
      exact ha
  · intro y hy hny
    rcases mem_markFirst_tgt (p := p) (f := f) hy with h1 | ⟨_, h1⟩
    · exact ⟨y, h1, rfl, hny⟩
    · exact ⟨f y, h1, hid y, hn y⟩
  · intro x hx hfresh
    rcases mem_markFirst_src hx with h1 | ⟨y, hy, _, hxy⟩
    · exact absurd rfl (hfresh x h1)
    · subst hxy
      exact absurd (hid y).symm (hfresh y hy)

/-! ## Which tables each store operation touches -/

theorem goc_events (db : DB) (n : String) :
    (get_or_create_firm db n).2.events = db.events := by
  simp only [get_or_create_firm]; split <;> rfl

theorem goc_jobs (db : DB) (n : String) :
    (get_or_create_firm db n).2.jobs = db.jobs := by
  simp only [get_or_create_firm]; split <;> rfl

theorem goc_blogs (db : DB) (n : String) :
    (get_or_create_firm db n).2.blogs = db.blogs := by
  simp only [get_or_create_firm]; split <;> rfl

theorem goc_reports (db : DB) (n : String) :
    (get_or_create_firm db n).2.reports = db.reports := by
  simp only [get_or_create_firm]; split <;> rfl

theorem goc_videos (db : DB) (n : String) :
    (get_or_create_firm db n).2.videos = db.videos := by
  simp only [get_or_create_firm]; split <;> rfl

theorem add_event_events_cases (db : DB) (fn t : String) (a : EventAttrs) :
    (add_event db fn t a).2.events = db.events ∨
    ∃ e : EventRec, e.notified = false ∧
      (add_event db fn t a).2.events = db.events ++ [e] := by
  simp only [add_event]
  split
  · exact Or.inl (goc_events db fn)
  · exact Or.inr ⟨{ id := (get_or_create_firm db fn).2.nextEventId,
                    firm_id := (get_or_create_firm db fn).1.id,
                    title := t, attrs := a, notified := false },
                  rfl, by simp [goc_events]⟩

theorem add_event_jobs (db : DB) (fn t : String) (a : EventAttrs) :
    (add_event db fn t a).2.jobs = db.jobs := by
  simp only [add_event]; split
  · exact goc_jobs db fn
  · exact goc_jobs db fn

theorem add_event_blogs (db : DB) (fn t : String) (a : EventAttrs) :
    (add_event db fn t a).2.blogs = db.blogs := by
  simp only [add_event]; split
  · exact goc_blogs db fn
  · exact goc_blogs db fn

theorem add_event_reports (db : DB) (fn t : String) (a : EventAttrs) :
    (add_event db fn t a).2.reports = db.reports := by
  simp only [add_event]; split
  · exact goc_reports db fn
  · exact goc_reports db fn

theorem add_event_videos (db : DB) (fn t : String) (a : EventAttrs) :
    (add_event db fn t a).2.videos = db.videos := by
  simp only [add_event]; split
  · exact goc_videos db fn
  · exact goc_videos db fn

theorem add_job_jobs_cases (db : DB) (fn t u : String) (a : JobAttrs) :
    (add_job_posting db fn t u a).2.jobs = db.jobs ∨
    ∃ j : JobRec, j.notified = false ∧
      (add_job_posting db fn t u a).2.jobs = db.jobs ++ [j] := by
  simp only [add_job_posting]
  split
  · exact Or.inl (goc_jobs db fn)
  · exact Or.inr ⟨{ id := (get_or_create_firm db fn).2.nextJobId,
                    firm_id := (get_or_create_firm db fn).1.id,
                    title := t, job_url := u, attrs := a, notified := false },
                  rfl, by simp [goc_jobs]⟩

theorem add_job_events (db : DB) (fn t u : String) (a : JobAttrs) :
    (add_job_posting db fn t u a).2.events = db.events := by
  simp only [add_job_posting]; split
  · exact goc_events db fn
  · exact goc_events db fn

theorem add_job_blogs (db : DB) (fn t u : String) (a : JobAttrs) :
    (add_job_posting db fn t u a).2.blogs = db.blogs := by
  simp only [add_job_posting]; split
  · exact goc_blogs db fn
  · exact goc_blogs db fn

theorem add_job_reports (db : DB) (fn t u : String) (a : JobAttrs) :
    (add_job_posting db fn t u a).2.reports = db.reports := by
  simp only [add_job_posting]; split
  · exact goc_reports db fn
  · exact goc_reports db fn

theorem add_job_videos (db : DB) (fn t u : String) (a : JobAttrs) :
    (add_job_posting db fn t u a).2.videos = db.videos := by
  simp only [add_job_posting]; split
  · exact goc_videos db fn
  · exact goc_videos db fn

theorem processBlog_blogs_cases (db : DB) (fn : String) (d : BlogData) :
    (processBlogPostDB db fn d).2.blogs = db.blogs ∨
    ∃ b : BlogRec, b.notified = false ∧
      (processBlogPostDB db fn d).2.blogs = db.blogs ++ [b] := by
  simp only [processBlogPostDB]
  split
  · exact Or.inl rfl
  · exact Or.inr ⟨{ id := (get_or_create_firm db fn).2.nextBlogId,
                    firm_id := (get_or_create_firm db fn).1.id,
                    data := d, notified := false },
                  rfl, by simp [goc_blogs]⟩

theorem processBlog_events (db : DB) (fn : String) (d : BlogData) :
    (processBlogPostDB db fn d).2.events = db.events := by
  simp only [processBlogPostDB]; split
  · rfl
  · exact goc_events db fn

theorem processBlog_jobs (db : DB) (fn : String) (d : BlogData) :
    (processBlogPostDB db fn d).2.jobs = db.jobs := by
  simp only [processBlogPostDB]; split
  · rfl
  · exact goc_jobs db fn

theorem processBlog_reports (db : DB) (fn : String) (d : BlogData) :
    (processBlogPostDB db fn d).2.reports = db.reports := by
  simp only [processBlogPostDB]; split
  · rfl
  · exact goc_reports db fn

theorem processBlog_videos (db : DB) (fn : String) (d : BlogData) :
    (processBlogPostDB db fn d).2.videos = db.videos := by
  simp only [processBlogPostDB]; split
  · rfl
  · exact goc_videos db fn

theorem processReport_reports_cases (db : DB) (fn : String) (d : ReportData) :
    (processReportDB db fn d).2.reports = db.reports ∨
    ∃ r : ReportRec, r.notified = false ∧
      (processReportDB db fn d).2.reports = db.reports ++ [r] := by
  simp only [processReportDB]
  split
  · exact Or.inl rfl
  · exact Or.inr ⟨{ id := (get_or_create_firm db fn).2.nextReportId,
                    firm_id := (get_or_create_firm db fn).1.id,
                    data := d, notified := false },
                  rfl, by simp [goc_reports]⟩

theorem processReport_events (db : DB) (fn : String) (d : ReportData) :
    (processReportDB db fn d).2.events = db.events := by
  simp only [processReportDB]; split
  · rfl
  · exact goc_events db fn

theorem processReport_jobs (db : DB) (fn : String) (d : ReportData) :
    (processReportDB db fn d).2.jobs = db.jobs := by
  simp only [processReportDB]; split
  · rfl
  · exact goc_jobs db fn

theorem processReport_blogs (db : DB) (fn : String) (d : ReportData) :
    (processReportDB db fn d).2.blogs = db.blogs := by
  simp only [processReportDB]; split
  · rfl
  · exact goc_blogs db fn

theorem processReport_videos (db : DB) (fn : String) (d : ReportData) :
    (processReportDB db fn d).2.videos = db.videos := by
  simp only [processReportDB]; split
  · rfl
  · exact goc_videos db fn

theorem processVideo_videos_cases (db : DB) (fn : String) (d : VideoData) :
    (processVideoDB db fn d).2.videos = db.videos ∨
    ∃ v : VideoRec, v.notified = false ∧
      (processVideoDB db fn d).2.videos = db.videos ++ [v] := by
  simp only [processVideoDB]
  split
  · exact Or.inl rfl
  · exact Or.inr ⟨{ id := (get_or_create_firm db fn).2.nextVideoId,
                    firm_id := (get_or_create_firm db fn).1.id,
                    data := d, notified := false },
                  rfl, by simp [goc_videos]⟩

theorem processVideo_events (db : DB) (fn : String) (d : VideoData) :
    (processVideoDB db fn d).2.events = db.events := by
  simp only [processVideoDB]; split
  · rfl
  · exact goc_events db fn

theorem processVideo_jobs (db : DB) (fn : String) (d : VideoData) :
    (processVideoDB db fn d).2.jobs = db.jobs := by
  simp only [processVideoDB]; split
  · rfl
  · exact goc_jobs db fn

theorem processVideo_blogs (db : DB) (fn : String) (d : VideoData) :
    (processVideoDB db fn d).2.blogs = db.blogs := by
  simp only [processVideoDB]; split
  · rfl
  · exact goc_blogs db fn

theorem processVideo_reports (db : DB) (fn : String) (d : VideoData) :
    (processVideoDB db fn d).2.reports = db.reports := by
  simp only [processVideoDB]; split
  · rfl
  · exact goc_reports db fn

theorem processEvent_db_cases (db : DB) (ev : EventCandidate) (sn : String) :
    (processEvent db ev sn).2 = db ∨
    ∃ fn a, (processEvent db ev sn).2 = (add_event db fn ev.title a).2 := by
  simp only [processEvent]
  split
  · exact Or.inl rfl
  · exact Or.inr ⟨_, _, rfl⟩

theorem processJob_db_cases (db : DB) (job : JobCandidate) (fn : String) :
    (processJob db job fn).2 = db ∨
    ∃ a, (processJob db job fn).2 = (add_job_posting db fn job.title job.url a).2 := by
  simp only [processJob]
  split
  · exact Or.inl rfl
  · split
    · exact Or.inl rfl
    · exact Or.inr ⟨_, rfl⟩

/-! ## C7 — the `notified` flag lifecycle -/

/-- **C7.**  For every content record, the `notified` flag is `false` at
creation and is changed only from `false` to `true`, only by the
mark-notified store operations (`mark_event_notified` /
`mark_job_notified`, whose sole callers in the repository are the
Notifier's `_notify_events` / `_notify_jobs`); no operation of the store
or of any extractor ever sets a `notified` flag back to `false`.  Stated
as: every operation `op` of the store/extractor alphabet satisfies the
three-clause `tableInv` lifecycle on all five content tables. -/
theorem c7_notified_flag_lifecycle (op : StoreOp) (db : DB) :
    notifiedInvariant op db (applyOp op db) := by
  cases op with
  | getOrCreateFirm name =>
      exact ⟨tableInv_of_eq _ _ _ (goc_events db name),
             tableInv_of_eq _ _ _ (goc_jobs db name),
             tableInv_of_eq _ _ _ (goc_blogs db name),
             tableInv_of_eq _ _ _ (goc_reports db name),
             tableInv_of_eq _ _ _ (goc_videos db name)⟩
  | addEvent fn t a =>
      refine ⟨?_, tableInv_of_eq _ _ _ (add_event_jobs db fn t a),
              tableInv_of_eq _ _ _ (add_event_blogs db fn t a),
              tableInv_of_eq _ _ _ (add_event_reports db fn t a),
              tableInv_of_eq _ _ _ (add_event_videos db fn t a)⟩
      rcases add_event_events_cases db fn t a with h | ⟨e, he, h⟩
      · exact tableInv_of_eq _ _ _ h
      · exact tableInv_append _ _ _ he h
  | addJobPosting fn t u a =>
      refine ⟨tableInv_of_eq _ _ _ (add_job_events db fn t u a), ?_,
              tableInv_of_eq _ _ _ (add_job_blogs db fn t u a),
              tableInv_of_eq _ _ _ (add_job_reports db fn t u a),
              tableInv_of_eq _ _ _ (add_job_videos db fn t u a)⟩
      rcases add_job_jobs_cases db fn t u a with h | ⟨j, hj, h⟩
      · exact tableInv_of_eq _ _ _ h
      · exact tableInv_append _ _ _ hj h
  | markEventNotified i =>
      refine ⟨?_, tableInv_of_eq _ _ _ rfl, tableInv_of_eq _ _ _ rfl,
              tableInv_of_eq _ _ _ rfl, tableInv_of_eq _ _ _ rfl⟩
      have hmf : (applyOp (StoreOp.markEventNotified i) db).events =
          markFirst (fun e : EventRec => e.id == i)
            (fun e => { e with notified := true }) db.events := rfl
      exact tableInv_markFirst _ _ _ (h := hmf)
        (fun _ hpe => eq_of_beq hpe)
        (fun x => (rfl : ({ x with notified := true } : EventRec).id = x.id))
        (fun x => (rfl : ({ x with notified := true } : EventRec).notified = true)) rfl
  | markJobNotified i =>
      refine ⟨tableInv_of_eq _ _ _ rfl, ?_, tableInv_of_eq _ _ _ rfl,
              tableInv_of_eq _ _ _ rfl, tableInv_of_eq _ _ _ rfl⟩
      have hmf : (applyOp (StoreOp.markJobNotified i) db).jobs =
          markFirst (fun j : JobRec => j.id == i)
            (fun j => { j with notified := true }) db.jobs := rfl
      exact tableInv_markFirst _ _ _ (h := hmf)
        (fun _ hpj => eq_of_beq hpj)
        (fun x => (rfl : ({ x with notified := true } : JobRec).id = x.id))
        (fun x => (rfl : ({ x with notified := true } : JobRec).notified = true)) rfl
  | logScrape e =>
      exact ⟨tableInv_of_eq _ _ _ rfl, tableInv_of_eq _ _ _ rfl,
             tableInv_of_eq _ _ _ rfl, tableInv_of_eq _ _ _ rfl,
             tableInv_of_eq _ _ _ rfl⟩
  | processEventOp ev sn =>
      rcases processEvent_db_cases db ev sn with h | ⟨fn, a, h⟩
      · exact ⟨tableInv_of_eq _ _ _ (congrArg DB.events h),
               tableInv_of_eq _ _ _ (congrArg DB.jobs h),
               tableInv_of_eq _ _ _ (congrArg DB.blogs h),
               tableInv_of_eq _ _ _ (congrArg DB.reports h),
               tableInv_of_eq _ _ _ (congrArg DB.videos h)⟩
      · refine ⟨?_,
          tableInv_of_eq _ _ _ ((congrArg DB.jobs h).trans (add_event_jobs db fn ev.title a)),
          tableInv_of_eq _ _ _ ((congrArg DB.blogs h).trans (add_event_blogs db fn ev.title a)),
          tableInv_of_eq _ _ _ ((congrArg DB.reports h).trans (add_event_reports db fn ev.title a)),
          tableInv_of_eq _ _ _ ((congrArg DB.videos h).trans (add_event_videos db fn ev.title a))⟩
        rcases add_event_events_cases db fn ev.title a with h2 | ⟨e, he, h2⟩
        · exact tableInv_of_eq _ _ _ ((congrArg DB.events h).trans h2)
        · exact tableInv_append _ _ _ he ((congrArg DB.events h).trans h2)
  | processJobOp job fn =>
      rcases processJob_db_cases db job fn with h | ⟨a, h⟩
      · exact ⟨tableInv_of_eq _ _ _ (congrArg DB.events h),
               tableInv_of_eq _ _ _ (congrArg DB.jobs h),
               tableInv_of_eq _ _ _ (congrArg DB.blogs h),
               tableInv_of_eq _ _ _ (congrArg DB.reports h),
               tableInv_of_eq _ _ _ (congrArg DB.videos h)⟩
      · refine ⟨
          tableInv_of_eq _ _ _ ((congrArg DB.events h).trans (add_job_events db fn job.title job.url a)),
          ?_,
          tableInv_of_eq _ _ _ ((congrArg DB.blogs h).trans (add_job_blogs db fn job.title job.url a)),
          tableInv_of_eq _ _ _ ((congrArg DB.reports h).trans (add_job_reports db fn job.title job.url a)),
          tableInv_of_eq _ _ _ ((congrArg DB.videos h).trans (add_job_videos db fn job.title job.url a))⟩
        rcases add_job_jobs_cases db fn job.title job.url a with h2 | ⟨j, hj, h2⟩
        · exact tableInv_of_eq _ _ _ ((congrArg DB.jobs h).trans h2)
        · exact tableInv_append _ _ _ hj ((congrArg DB.jobs h).trans h2)
  | insertBlogPost fn d =>
      refine ⟨tableInv_of_eq _ _ _ (processBlog_events db fn d),
              tableInv_of_eq _ _ _ (processBlog_jobs db fn d), ?_,
              tableInv_of_eq _ _ _ (processBlog_reports db fn d),
              tableInv_of_eq _ _ _ (processBlog_videos db fn d)⟩
      rcases processBlog_blogs_cases db fn d with h | ⟨b, hb, h⟩
      · exact tableInv_of_eq _ _ _ h
      · exact tableInv_append _ _ _ hb h
  | insertReport fn d =>
      refine ⟨tableInv_of_eq _ _ _ (processReport_events db fn d),
              tableInv_of_eq _ _ _ (processReport_jobs db fn d),
              tableInv_of_eq _ _ _ (processReport_blogs db fn d), ?_,
              tableInv_of_eq _ _ _ (processReport_videos db fn d)⟩
      rcases processReport_reports_cases db fn d with h | ⟨r, hr, h⟩
      · exact tableInv_of_eq _ _ _ h
      · exact tableInv_append _ _ _ hr h
  | insertVideo fn d =>
      refine ⟨tableInv_of_eq _ _ _ (processVideo_events db fn d),
              tableInv_of_eq _ _ _ (processVideo_jobs db fn d),
              tableInv_of_eq _ _ _ (processVideo_blogs db fn d),
              tableInv_of_eq _ _ _ (processVideo_reports db fn d), ?_⟩
      rcases processVideo_videos_cases db fn d with h | ⟨v, hv, h⟩
      · exact tableInv_of_eq _ _ _ h
      · exact tableInv_append _ _ _ hv h

/-! ## Further store lemmas, for the dedup claims -/

theorem add_event_firms (db : DB) (fn t : String) (a : EventAttrs) :
    (add_event db fn t a).2.firms = (get_or_create_firm db fn).2.firms := by
  simp only [add_event]; split
  · rfl
  · rfl

theorem goc_find_self (db : DB) (n : String) :
    (get_or_create_firm db n).2.firms.find? (fun f => f.name == n) =
      some (get_or_create_firm db n).1 := by
  simp only [get_or_create_firm]
  split
  next f hf => exact hf
  next hf => simp [List.find?_append, hf, List.find?]

theorem add_event_mem_after (db : DB) (fn t : String) (a : EventAttrs) :
    ∃ e ∈ (add_event db fn t a).2.events,
      (e.firm_id == (get_or_create_firm db fn).1.id && e.title == t) = true := by
  simp only [add_event]
  split
  next e' heq =>
    exact ⟨e', List.mem_of_find?_eq_some heq, by simpa using List.find?_some heq⟩
  next heq =>
    refine ⟨{ id := (get_or_create_firm db fn).2.nextEventId,
              firm_id := (get_or_create_firm db fn).1.id,
              title := t, attrs := a, notified := false },
            List.mem_append_right _ (List.mem_singleton_self _), ?_⟩
    simp

/-- Lowercasing each of the seven registration keywords is the identity:
they are written in lowercase in `requires_registration`. -/
theorem regKeywordsLower :
    ∀ k ∈ registrationKeywords, pyLower (codes k) = codes k := by decide

/-! ## C1 — `notify_new_items` -/

set_option maxRecDepth 8000 in
/-- **C1 (code bug).**  The claim: on a store with `N` unnotified events,
`M` unnotified jobs and no other unnotified content, `notify_new_items`
completes, the unnotified queries then return `[]`, and the summary's
`total_notifications` is `N + M`.  The code cannot do this: after reading
the unnotified events and jobs, notifier.py line 38 evaluates
`self.db.get_unnotified_blog_posts()` on a `DatabaseManager` that defines
no such method, so every call — in particular the `N = 2, M = 0` store of
the repository's own `test_notify_new_events` — raises `AttributeError`
instead of returning a summary. -/
theorem c1_notify_new_items_raises :
    (∀ db : DB, notify_new_items db = Except.error attributeErrorMsg) ∧
    (get_unnotified_events dbNotifyTest).length = 2 ∧
    (get_unnotified_jobs dbNotifyTest).length = 0 ∧
    notify_new_items dbNotifyTest = Except.error attributeErrorMsg :=
  ⟨fun _ => rfl, by decide, by decide, rfl⟩

/-! ## C2 — `requires_registration` -/

set_option maxRecDepth 8000 in
/-- **C2 (counterexample).**  The claim asserts
`requires_registration "Open to all, no signup needed" = false`; in fact
it is `true`, because the registration keyword `"signup"` occurs as a
substring of the lower-cased input — exactly as the claim's own general
rule demands. -/
theorem c2_counterexample :
    requires_registration "Open to all, no signup needed" = true ∧
    hasSub (codes "signup") (pyLower (codes "Open to all, no signup needed")) = true := by
  constructor
  · decide
  · decide

set_option maxRecDepth 8000 in
/-- **C2 (amended).**  `requires_registration` returns `true` exactly when
one of the fixed phrases (register, registration, rsvp, sign up, signup,
reserve, reservation) occurs case-insensitively as a substring of the
input; in particular `requires_registration("RSVP required for this
event")` is true and `requires_registration("Open to all, no signup
needed")` is **also true** (it contains `"signup"`) — the original
claim's second example contradicts its own rule. -/
theorem c2_requires_registration_amended :
    (∀ text : String, requires_registration text = true ↔
      ∃ k ∈ registrationKeywords,
        hasSub (pyLower (codes k)) (pyLower (codes text)) = true) ∧
    requires_registration "RSVP required for this event" = true ∧
    requires_registration "Open to all, no signup needed" = true := by
  refine ⟨?_, by decide, by decide⟩
  intro text
  simp only [requires_registration, List.any_eq_true]
  constructor
  · rintro ⟨k, hk, h⟩
    exact ⟨k, hk, by rw [regKeywordsLower k hk]; exact h⟩
  · rintro ⟨k, hk, h⟩
    exact ⟨k, hk, by rw [regKeywordsLower k hk] at h; exact h⟩

/-! ## C3 — event dedup on the `(firm, title)` pair -/

set_option maxRecDepth 8000 in
/-- **C3 (counterexample).**  In `dbEventAB` the event `("A", "t")` is
already inserted, and `"B" ≠ "A"`, yet `add_event` with firm `"B"` and
the same title `"t"` returns `none` and leaves the event table unchanged
— firm `"B"` already has an event titled `"t"`.  So "calling `add_event`
with the same title but a different firm name creates and returns a
second row" does not hold unconditionally. -/
theorem c3_counterexample :
    (∃ f ∈ dbEventAB.firms, f.name = "A" ∧
      ∃ e ∈ dbEventAB.events, e.firm_id = f.id ∧ e.title = "t") ∧
    ("B" : String) ≠ "A" ∧
    (add_event dbEventAB "B" "t").1 = none ∧
    (add_event dbEventAB "B" "t").2.events = dbEventAB.events := by
  refine ⟨?_, ?_, ?_, ?_⟩
  · decide
  · decide
  · decide
  · decide

/-- **C3 (amended).**  Re-inserting with the same firm name and title
returns `none` and leaves the event table unchanged; inserting the same
title under a firm name whose resolved firm does *not* already have an
event with that title succeeds and creates a second row (keeping every
existing row). -/
theorem c3_add_event_dedup_amended :
    (∀ (db : DB) (fn t : String) (a a2 : EventAttrs),
      (add_event db fn t a).1.isSome = true →
      (add_event (add_event db fn t a).2 fn t a2).1 = none ∧
      (add_event (add_event db fn t a).2 fn t a2).2.events =
        (add_event db fn t a).2.events) ∧
    (∀ (db : DB) (fn t : String) (a : EventAttrs),
      (∀ e ∈ db.events,
        ¬(e.firm_id = (get_or_create_firm db fn).1.id ∧ e.title = t)) →
      (add_event db fn t a).1.isSome = true ∧
      (add_event db fn t a).2.events.length = db.events.length + 1 ∧
      ∀ e ∈ db.events, e ∈ (add_event db fn t a).2.events) := by
  constructor
  · intro db fn t a a2 _hsome
    obtain ⟨f0, hf0⟩ : ∃ f0, (get_or_create_firm db fn).1 = f0 := ⟨_, rfl⟩
    obtain ⟨db1, hdb1⟩ : ∃ d, (add_event db fn t a).2 = d := ⟨_, rfl⟩
    have hfind1 : db1.firms.find? (fun x => x.name == fn) = some f0 := by
      rw [← hdb1, add_event_firms, ← hf0]
      exact goc_find_self db fn
    have h2 : get_or_create_firm db1 fn = (f0, db1) := by
      simp only [get_or_create_firm, hfind1]
    have h3 : ∃ e ∈ db1.events, (e.firm_id == f0.id && e.title == t) = true := by
      rw [← hdb1, ← hf0]
      exact add_event_mem_after db fn t a
    have h4 : (db1.events.find? (fun e => e.firm_id == f0.id && e.title == t)).isSome = true :=
      List.find?_isSome.mpr h3
    obtain ⟨y, hy⟩ := Option.isSome_iff_exists.mp h4
    rw [hdb1]
    constructor
    · simp only [add_event, h2]
      rw [hy]
    · simp only [add_event, h2]
      rw [hy]
  · intro db fn t a hno
    have hfind : (get_or_create_firm db fn).2.events.find?
        (fun e => e.firm_id == (get_or_create_firm db fn).1.id && e.title == t) = none := by
      rw [goc_events]
      refine List.find?_eq_none.mpr (fun e he hcontra => ?_)
      rw [Bool.and_eq_true] at hcontra
      exact hno e he ⟨eq_of_beq hcontra.1, eq_of_beq hcontra.2⟩
    refine ⟨?_, ?_, ?_⟩
    · simp only [add_event]
      rw [hfind]
      rfl
    · simp only [add_event]
      rw [hfind]
      simp [goc_events]
    · intro e he
      simp only [add_event]
      rw [hfind]
      simp only [goc_events]
      exact List.mem_append_left _ he

set_option maxRecDepth 8000 in
/-- Witness for the amended C3, on a concrete store: re-inserting
`("A", "t")` is a no-op, and inserting `("B", "t")` after `("A", "t")`
creates a second row. -/
theorem c3_add_event_dedup_amended_witness :
    ((add_event dbEventA "A" "t").1 = none ∧
      (add_event dbEventA "A" "t").2.events = dbEventA.events) ∧
    ((add_event dbEventA "B" "t").1.isSome = true ∧
      (add_event dbEventA "B" "t").2.events.length = dbEventA.events.length + 1 ∧
      ∀ e ∈ dbEventA.events, e ∈ (add_event dbEventA "B" "t").2.events) :=
  ⟨c3_add_event_dedup_amended.1 emptyDB "A" "t" {} {} (by decide),
   c3_add_event_dedup_amended.2 dbEventA "B" "t" {} (by decide)⟩

/-! ## C4 — url-keyed dedup for jobs, blog posts, reports, videos -/

/-- **C4.**  For every already-inserted `JobPosting`, `BlogPost`,
`InvestorReport`, or `VideoContent`, a second insert attempt with the
same url returns "no new record" (`none` for `add_job_posting`, `false`
for the three scraper insert blocks) without error, and the store's rows
for that entity type are unchanged (so in particular its row count is). -/
theorem c4_url_dedup :
    (∀ (db : DB) (fn t u : String) (a : JobAttrs),
      (∃ j ∈ db.jobs, j.job_url = u) →
      (add_job_posting db fn t u a).1 = none ∧
      (add_job_posting db fn t u a).2.jobs = db.jobs) ∧
    (∀ (db : DB) (fn : String) (d : BlogData),
      (∃ b ∈ db.blogs, b.data.url = d.url) →
      processBlogPostDB db fn d = (false, db)) ∧
    (∀ (db : DB) (fn : String) (d : ReportData),
      (∃ r ∈ db.reports, r.data.url = d.url) →
      processReportDB db fn d = (false, db)) ∧
    (∀ (db : DB) (fn : String) (d : VideoData),
      (∃ v ∈ db.videos, v.data.url = d.url) →
      processVideoDB db fn d = (false, db)) := by
  refine ⟨?_, ?_, ?_, ?_⟩
  · rintro db fn t u a ⟨j, hj, hju⟩
    have hs : ((get_or_create_firm db fn).2.jobs.find? (fun x => x.job_url == u)).isSome = true := by
      rw [goc_jobs]
      exact List.find?_isSome.mpr ⟨j, hj, by simp [hju]⟩
    obtain ⟨y, hy⟩ := Option.isSome_iff_exists.mp hs
    constructor
    · simp only [add_job_posting]
      rw [hy]
    · simp only [add_job_posting]
      rw [hy]
      exact goc_jobs db fn
  · rintro db fn d ⟨b, hb, hbu⟩
    have hs : (db.blogs.find? (fun x => x.data.url == d.url)).isSome = true :=
      List.find?_isSome.mpr ⟨b, hb, by simp [hbu]⟩
    obtain ⟨y, hy⟩ := Option.isSome_iff_exists.mp hs
    simp only [processBlogPostDB]
    rw [hy]
  · rintro db fn d ⟨r, hr, hru⟩
    have hs : (db.reports.find? (fun x => x.data.url == d.url)).isSome = true :=
      List.find?_isSome.mpr ⟨r, hr, by simp [hru]⟩
    obtain ⟨y, hy⟩ := Option.isSome_iff_exists.mp hs
    simp only [processReportDB]
    rw [hy]
  · rintro db fn d ⟨v, hv, hvu⟩
    have hs : (db.videos.find? (fun x => x.data.url == d.url)).isSome = true :=
      List.find?_isSome.mpr ⟨v, hv, by simp [hvu]⟩
    obtain ⟨y, hy⟩ := Option.isSome_iff_exists.mp hs
    simp only [processVideoDB]
    rw [hy]

set_option maxRecDepth 8000 in
/-- Witness for C4 on concrete one-row stores of each entity type. -/
theorem c4_url_dedup_witness :
    ((add_job_posting dbJobOne "Two Sigma" "Quantitative Researcher"
        "https://careers.twosigma.com/job/1" {}).1 = none ∧
      (add_job_posting dbJobOne "Two Sigma" "Quantitative Researcher"
        "https://careers.twosigma.com/job/1" {}).2.jobs = dbJobOne.jobs) ∧
    processBlogPostDB dbBlogOne "Jane Street"
      { title := "OCaml at Scale", url := "https://blog.janestreet.com/ocaml" } =
      (false, dbBlogOne) ∧
    processReportDB dbReportOne "AQR Capital"
      { title := "Quarterly Letter", url := "https://www.aqr.com/q1.pdf" } =
      (false, dbReportOne) ∧
    processVideoDB dbVideoOne "Two Sigma"
      { title := "Tech Talk", url := "https://youtube.com/watch?v=abcdefghijk" } =
      (false, dbVideoOne) :=
  ⟨c4_url_dedup.1 dbJobOne "Two Sigma" "Quantitative Researcher"
      "https://careers.twosigma.com/job/1" {} (by decide),
   c4_url_dedup.2.1 dbBlogOne "Jane Street" _ (by decide),
   c4_url_dedup.2.2.1 dbReportOne "AQR Capital" _ (by decide),
   c4_url_dedup.2.2.2 dbVideoOne "Two Sigma" _ (by decide)⟩

/-! ## C5 — `score_event_relevance` -/

set_option maxRecDepth 8000 in
/-- **C5.**  For every title and description, `score_event_relevance`
returns `min 10 ((5 if any firm detected else 0) + min(keyword_count, 5))`
— with `keyword_count` the raw count from `is_quant_related` at
threshold 0 — hence an integer in `0..10`; the Citadel workshop example
scores at least 5, the generic career fair example below 5. -/
theorem c5_score_event_relevance :
    (∀ title description : String,
      score_event_relevance title description =
        min 10 ((if (detect_firm (title ++ " " ++ description)).isEmpty then 0 else 5) +
          min (is_quant_related (title ++ " " ++ description) 0).2 5)) ∧
    (∀ title description : String, score_event_relevance title description ≤ 10) ∧
    5 ≤ score_event_relevance "Citadel Quantitative Trading Workshop"
        "Learn about algorithmic trading and machine learning in finance" ∧
    score_event_relevance "Generic Career Fair" "Meet with various employers" < 5 := by
  refine ⟨?_, ?_, by decide, by decide⟩
  · intro t d
    simp only [score_event_relevance]
    exact Nat.min_comm _ _
  · intro t d
    exact Nat.min_le_right _ _

/-! ## C6 — `is_relevant_job` -/

set_option maxRecDepth 8000 in
/-- **C6.**  `is_relevant_job` is true iff some known job-role phrase
occurs as a substring of the lower-cased concatenation of title and
description, or `is_quant_related` at threshold 3 holds on that text;
the trading-systems example is relevant, the marketing example is not. -/
theorem c6_is_relevant_job :
    (∀ title description : String,
      is_relevant_job title description = true ↔
        (∃ role ∈ QUANT_JOB_ROLES,
          hasSub (pyLower (codes role))
            (pyLower (codes (title ++ " " ++ description))) = true) ∨
        (is_quant_relatedL (pyLower (codes (title ++ " " ++ description))) 3).1 = true) ∧
    is_relevant_job "Software Engineer - Trading Systems"
      "Build low latency trading systems for quantitative strategies" = true ∧
    is_relevant_job "Marketing Manager" "Manage marketing campaigns" = false := by
  refine ⟨?_, by decide, by decide⟩
  intro t d
  simp only [is_relevant_job, Bool.or_eq_true, List.any_eq_true]

/-! ## C8 — failure path of the scrape entry points -/

/-- **C8.**  When the external fetch or parse fails with message `msg`,
each extractor entry point returns the count 0 and the store extended by
exactly one `ScrapeLog` row with `success = false` carrying the error
message — and, being a total function of the store, propagates no
exception to its caller. -/
theorem c8_scrape_failure_paths :
    ∀ (db : DB) (url source_name msg : String),
      scrape_generic_events_page db url source_name (Except.error msg) =
        (0, log_scrape db
          { source_name := source_name, source_url := some url, scrape_type := "event",
            success := false, events_found := 0, jobs_found := 0,
            error_message := some msg }) ∧
      scrape_rss_feed db url source_name (Except.error msg) =
        (0, log_scrape db
          { source_name := source_name, source_url := some url, scrape_type := "event",
            success := false, events_found := 0, jobs_found := 0,
            error_message := some msg }) ∧
      scrape_firm_jobs db source_name url (Except.error msg) =
        (0, log_scrape db
          { source_name := source_name, source_url := some url, scrape_type := "job",
            success := false, events_found := 0, jobs_found := 0,
            error_message := some msg }) :=
  fun _ _ _ _ => ⟨rfl, rfl, rfl⟩

/-! ## C9 — storage filenames -/

/-- **C9 (counterexample).**  Two `save_blog_post` calls with identical
firm name, title, format and date but *different* content return the
*same* relative path: `_generate_filename` hashes the title, not the
content, so a differently-worded duplicate of the same title IS silently
overwritten. -/
theorem c9_counterexample :
    save_blog_post "Citadel" "Execution Quality" "first draft content" "md" "20261012" =
      save_blog_post "Citadel" "Execution Quality" "revised different content" "md" "20261012" ∧
    ("first draft content" : String) ≠ "revised different content" :=
  ⟨rfl, by decide⟩

/-- **C9 (amended).**  The relative path returned by `save_blog_post`,
`save_report` and `save_transcript` is determined by the firm name, the
date and the title (via an 8-hex-digit MD5 hash *of the title* plus the
sanitized title) — and not by the content: calls with identical firm
name, title and date return the same path whatever the content, so a
re-run writes the same path and a changed duplicate of the same logical
item is overwritten rather than kept. -/
theorem c9_filename_content_independent :
    (∀ firm_name title content format today : String,
      save_blog_post firm_name title content format today =
        codes "blog_posts/" ++ generate_filename (codes firm_name) (codes title)
          (codes ("." ++ format)) (codes today)) ∧
    (∀ firm_name title c c' format today : String,
      save_blog_post firm_name title c format today =
        save_blog_post firm_name title c' format today) ∧
    (∀ (firm_name title : String) (c c' : List Nat) (ext today : String),
      save_report firm_name title c ext today = save_report firm_name title c' ext today) ∧
    (∀ firm_name title c c' today : String,
      save_transcript firm_name title c today = save_transcript firm_name title c' today) :=
  ⟨fun _ _ _ _ _ => rfl, fun _ _ _ _ _ _ => rfl,
   fun _ _ _ _ _ _ => rfl, fun _ _ _ _ _ => rfl⟩

/-! ## C10 — the final rejection branch of `_process_event` -/

/-- **C10.**  Whenever a candidate scores at least 3 and no firm is
detected in the title-plus-description text, `is_quant_related` at its
default threshold 2 necessarily holds on that text (the score can then
only come from the keyword count, which must be at least 3); hence the
final rejection branch of `_process_event` is unreachable, and every
candidate scoring at least 3 is assigned either a detected firm name or
the placeholder `"Quantitative Finance Firm"`. -/
theorem c10_reject_branch_unreachable :
    ∀ title description : String,
      3 ≤ score_event_relevance title description →
      (processEventDecision title description).isSome = true ∧
      (∀ f, extract_firm_name (title ++ " " ++ description) = some f →
        processEventDecision title description = some f) ∧
      (detect_firm (title ++ " " ++ description) = [] →
        (is_quant_related (title ++ " " ++ description)).1 = true ∧
        processEventDecision title description = some "Quantitative Finance Firm") := by
  intro t d h
  have hnotlt : ¬ score_event_relevance t d < 3 := by omega
  have hq : detect_firm (t ++ " " ++ d) = [] →
      (is_quant_related (t ++ " " ++ d)).1 = true := by
    intro hd
    have hisEmpty : (detect_firm (t ++ " " ++ d)).isEmpty = true := by
      rw [hd]; rfl
    have hscore : score_event_relevance t d =
        min (0 + min (is_quant_related (t ++ " " ++ d) 0).2 5) 10 := by
      simp only [score_event_relevance, hisEmpty, if_pos]
    rw [hscore] at h
    have h5 : 3 ≤ 0 + min (is_quant_related (t ++ " " ++ d) 0).2 5 :=
      le_trans h (Nat.min_le_left _ _)
    have h6 : 3 ≤ (is_quant_related (t ++ " " ++ d) 0).2 :=
      le_trans h5 (by rw [Nat.zero_add]; exact Nat.min_le_left _ _)
    have h7 : 2 ≤ (is_quant_related (t ++ " " ++ d) 0).2 := by omega
    exact decide_eq_true h7
  have hfirm : ∀ f, extract_firm_name (t ++ " " ++ d) = some f →
      processEventDecision t d = some f := by
    intro f hf
    simp only [processEventDecision, if_neg hnotlt, hf]
  have hph : detect_firm (t ++ " " ++ d) = [] →
      processEventDecision t d = some "Quantitative Finance Firm" := by
    intro hd
    have hext : extract_firm_name (t ++ " " ++ d) = none := by
      simp [extract_firm_name, hd]
    simp only [processEventDecision, if_neg hnotlt, hext, hq hd, if_pos]
  refine ⟨?_, hfirm, fun hd => ⟨hq hd, hph hd⟩⟩
  cases hext : extract_firm_name (t ++ " " ++ d) with
  | some f => rw [hfirm f hext]; rfl
  | none =>
      have hd : detect_firm (t ++ " " ++ d) = [] := by
        have := hext
        rw [extract_firm_name] at this
        exact List.head?_eq_none_iff.mp this
      rw [hph hd]; rfl

set_option maxRecDepth 8000 in
/-- Witness for C10: a firm-free candidate with five keyword matches
scores 3-or-more and is assigned the generic placeholder firm. -/
theorem c10_reject_branch_unreachable_witness :
    3 ≤ score_event_relevance "Algorithmic trading volatility arbitrage workshop" "" ∧
    detect_firm ("Algorithmic trading volatility arbitrage workshop" ++ " " ++ "") = [] ∧
    processEventDecision "Algorithmic trading volatility arbitrage workshop" "" =
      some "Quantitative Finance Firm" :=
  ⟨by decide, by decide,
   ((c10_reject_branch_unreachable "Algorithmic trading volatility arbitrage workshop" ""
      (by decide)).2.2 (by decide)).2⟩

end EventMonitoring
